import Mathlib

/-!
Shallow embedding of the SniperX V3 monitoring engine (Monitoring.py and
process_lock.py) together with proofs settling the specification claims.

Prices and timestamps are modelled as rationals; `Option ℚ` stands for a
possibly-absent value (Python `None`).  An evaluator tick is the body of
`trade_logic_and_price_display_loop` from the price determination down to
the stagnation checks; raising `TokenProcessingComplete` is modelled by the
`Except` error channel.
-/

namespace SniperX

/-- `TAKE_PROFIT_THRESHOLD_PERCENT = 1.10` from Monitoring.py. -/
def TAKE_PROFIT_THRESHOLD_PERCENT : ℚ := 110 / 100

/-- `STOP_LOSS_THRESHOLD_PERCENT = 0.95` from Monitoring.py. -/
def STOP_LOSS_THRESHOLD_PERCENT : ℚ := 95 / 100

/-- `STAGNATION_PRICE_THRESHOLD_PERCENT = 0.80` from Monitoring.py. -/
def STAGNATION_PRICE_THRESHOLD_PERCENT : ℚ := 80 / 100

/-- `NO_BUY_SIGNAL_TIMEOUT_SECONDS = 180` from Monitoring.py. -/
def NO_BUY_SIGNAL_TIMEOUT_SECONDS : ℚ := 180

/-- `STAGNATION_TIMEOUT_SECONDS = 180` from Monitoring.py. -/
def STAGNATION_TIMEOUT_SECONDS : ℚ := 180

/-- `BUY_SIGNAL_PRICE_INCREASE_PERCENT = 1.01` from Monitoring.py. -/
def BUY_SIGNAL_PRICE_INCREASE_PERCENT : ℚ := 101 / 100

/-- `PRICE_IMPACT_THRESHOLD_MONITOR = 65.0` from Monitoring.py. -/
def PRICE_IMPACT_THRESHOLD_MONITOR : ℚ := 65

/-- `DEXSCREENER_PRICE_UPDATE_INTERVAL_SECONDS = 1` from Monitoring.py. -/
def DEXSCREENER_PRICE_UPDATE_INTERVAL_SECONDS : ℚ := 1

/-- The token-specific global state of Monitoring.py: `g_baseline_price_usd`,
`g_buy_signal_detected`, `g_buy_price_usd`, `g_token_start_time`,
`g_stagnation_timer_start` and `g_trade_status`. -/
structure EpochState where
  baseline : Option ℚ
  buySignalDetected : Bool
  buyPrice : Option ℚ
  tokenStartTime : ℚ
  stagnationTimerStart : Option ℚ
  tradeStatus : String
deriving DecidableEq, Repr

/-- The reason string carried by `TokenProcessingComplete`. -/
inductive CloseReason where
  | noBuySignalTimeout
  | takeProfit
  | stopLoss
  | stagnation
  | stagnationNoData
deriving DecidableEq, Repr

/-- The payload of a `TokenProcessingComplete` exception: reason plus the
optional `buy_price` and `sell_price` keyword arguments. -/
structure Outcome where
  reason : CloseReason
  buyPrice : Option ℚ
  sellPrice : Option ℚ
deriving DecidableEq, Repr

/-- Lines 486-488: if a price is present and no baseline is set yet, the
baseline is set to that price (before the lifecycle checks run). -/
def setBaseline (s : EpochState) (price : Option ℚ) : EpochState :=
  match price, s.baseline with
  | some p, none => { s with baseline := some p }
  | _, _ => s

/-- Lines 493-505: buy-signal / no-buy-signal-timeout check.  Skipped
entirely once `g_buy_signal_detected` is true.  Python condition:
`usd_price is not None and usd_price > baseline * 1.01`, with the
timeout in the `elif`. -/
def checkBuySignal (b now : ℚ) (price : Option ℚ) (s : EpochState) :
    Except Outcome EpochState :=
  if s.buySignalDetected then .ok s
  else
    match price with
    | some p =>
      if b * BUY_SIGNAL_PRICE_INCREASE_PERCENT < p then
        .ok { s with buySignalDetected := true, buyPrice := some p,
                     tradeStatus := "bought" }
      else if NO_BUY_SIGNAL_TIMEOUT_SECONDS < now - s.tokenStartTime then
        .error ⟨.noBuySignalTimeout, none, some p⟩
      else .ok s
    | none =>
      if NO_BUY_SIGNAL_TIMEOUT_SECONDS < now - s.tokenStartTime then
        .error ⟨.noBuySignalTimeout, none, none⟩
      else .ok s

/-- Lines 508-525: take-profit / stop-loss check, guarded by
`g_buy_signal_detected and g_buy_price_usd is not None and
usd_price_per_token is not None`.  Take profit (`>=`) is checked before
stop loss (`<=`). -/
def checkTakeProfitStopLoss (price : Option ℚ) (s : EpochState) :
    Except Outcome EpochState :=
  match s.buySignalDetected, s.buyPrice, price with
  | true, some x, some p =>
    if x * TAKE_PROFIT_THRESHOLD_PERCENT ≤ p then
      .error ⟨.takeProfit, some x, some p⟩
    else if p ≤ x * STOP_LOSS_THRESHOLD_PERCENT then
      .error ⟨.stopLoss, some x, some p⟩
    else .ok s
  | _, _, _ => .ok s

/-- Lines 527-549: stagnation check.  With a present price below
`baseline * 0.80` the timer is started if unset, and a strict 180-second
overrun closes the epoch; a present price at or above the threshold clears
the timer.  With no price at all, a `StagnationNoData` close fires when the
timer is unset and more than 180 seconds have elapsed since epoch start. -/
def checkStagnation (b now : ℚ) (price : Option ℚ) (s : EpochState) :
    Except Outcome EpochState :=
  match price with
  | some p =>
    if p < b * STAGNATION_PRICE_THRESHOLD_PERCENT then
      match s.stagnationTimerStart with
      | none => .ok { s with stagnationTimerStart := some now }
      | some t0 =>
        if STAGNATION_TIMEOUT_SECONDS < now - t0 then
          .error ⟨.stagnation, none, some p⟩
        else .ok s
    else
      match s.stagnationTimerStart with
      | some _ => .ok { s with stagnationTimerStart := none }
      | none => .ok s
  | none =>
    match s.stagnationTimerStart with
    | none =>
      if STAGNATION_TIMEOUT_SECONDS < now - s.tokenStartTime then
        .error ⟨.stagnationNoData, none, none⟩
      else .ok s
    | some _ => .ok s

/-- One evaluator tick (lines 486-549 of
`trade_logic_and_price_display_loop`), given the determined price of the
tick.  All lifecycle checks run only once the baseline is set. -/
def evalTick (s0 : EpochState) (now : ℚ) (price : Option ℚ) :
    Except Outcome EpochState :=
  let s := setBaseline s0 price
  match s.baseline with
  | none => .ok s
  | some b =>
    (checkBuySignal b now price s).bind fun s1 =>
      (checkTakeProfitStopLoss price s1).bind fun s2 =>
        checkStagnation b now price s2

/-- `reset_token_specific_state`: the state of a fresh epoch started at
time `now`. -/
def resetTokenSpecificState (now : ℚ) : EpochState :=
  { baseline := none, buySignalDetected := false, buyPrice := none,
    tokenStartTime := now, stagnationTimerStart := none,
    tradeStatus := "monitoring" }

/-- A sequence of evaluator ticks, each given by its wall-clock time and
determined price; stops at the first tick that closes the epoch. -/
def runTicks (s : EpochState) : List (ℚ × Option ℚ) → Except Outcome EpochState
  | [] => .ok s
  | (t, p) :: rest =>
    match evalTick s t p with
    | .ok s' => runTicks s' rest
    | .error o => .error o

/-- Python's `str.strip()` on the whitespace characters relevant here:
drops leading and trailing whitespace. -/
def pyStrip (s : String) : String :=
  ⟨((s.data.dropWhile Char.isWhitespace).reverse.dropWhile
      Char.isWhitespace).reverse⟩

/-- The `Price_Impact_Cluster_Sell_Percent` cell of a queue CSV row: either
empty, a string `float()` rejects, or a string parsing to a number.  Lines
171-176 of `load_token_from_csv`: an empty cell defaults to
`PRICE_IMPACT_THRESHOLD_MONITOR + 1` (excluded) and an unparseable cell
makes the loop `continue` to the next row. -/
inductive ImpactCell where
  | empty
  | unparseable
  | value (q : ℚ)
deriving DecidableEq, Repr

/-- A queue CSV row as seen by `load_token_from_csv`: the raw `Address`,
`Name` and price-impact cells. -/
structure CsvRow where
  address : String
  name : String
  priceImpactCell : ImpactCell
deriving DecidableEq, Repr

/-- The numeric impact of a row's cell, `none` when the row is skipped via
`continue` (unparseable cell). -/
def impactValue : ImpactCell → Option ℚ
  | .unparseable => none
  | .empty => some (PRICE_IMPACT_THRESHOLD_MONITOR + 1)
  | .value q => some q

/-- The row loop of `load_token_from_csv` (lines 166-182): `acc` carries
`(latest_mint_address, latest_token_name)`, overwritten by every row with a
non-empty stripped address and impact below the threshold. -/
def selectFromRows (rows : List CsvRow) (acc : Option (String × String)) :
    Option (String × String) :=
  match rows with
  | [] => acc
  | r :: rest =>
    match impactValue r.priceImpactCell with
    | none => selectFromRows rest acc
    | some v =>
      if pyStrip r.address ≠ "" ∧ v < PRICE_IMPACT_THRESHOLD_MONITOR then
        selectFromRows rest
          (some (pyStrip r.address,
            if pyStrip r.name = "" then pyStrip r.address else pyStrip r.name))
      else selectFromRows rest acc

/-- Whether a row is one `load_token_from_csv` would record: parseable
impact cell, non-empty stripped address, impact below the threshold. -/
def rowValid (r : CsvRow) : Bool :=
  match impactValue r.priceImpactCell with
  | none => false
  | some v =>
    decide (pyStrip r.address ≠ "") && decide (v < PRICE_IMPACT_THRESHOLD_MONITOR)

/-- The name reported for a selected row: the stripped `Name`, defaulting
to the stripped address when empty. -/
def displayName (r : CsvRow) : String :=
  if pyStrip r.name = "" then pyStrip r.address else pyStrip r.name

/-- A queue CSV file as an input to the loader: missing on disk, failing to
read, or a header list plus data rows.  An empty file is `file [] []`
(`reader.fieldnames` is falsy). -/
inductive CsvFile where
  | missing
  | readError
  | file (headers : List String) (rows : List CsvRow)
deriving DecidableEq, Repr

/-- `load_token_from_csv` (lines 145-198): returns
`(latest_mint_address, latest_token_name)`, both `none` on a missing file,
read failure, empty header list, absent `Address` header (after stripping
each header), or when no row qualifies. -/
def load_token_from_csv : CsvFile → Option String × Option String
  | .missing => (none, none)
  | .readError => (none, none)
  | .file headers rows =>
    if headers = [] then (none, none)
    else if "Address" ∉ headers.map pyStrip then (none, none)
    else
      match selectFromRows rows none with
      | some (addr, nm) => (some addr, some nm)
      | none => (none, none)

/-- `remove_token_from_csv` (lines 200-247): drops every row whose stripped
address equals the given one and reports whether anything was removed; the
file is rewritten only when a row matched.  The header membership test here
uses the raw headers (no stripping), unlike the loader. -/
def remove_token_from_csv (addr : String) (f : CsvFile) : CsvFile × Bool :=
  if addr = "" then (f, false)
  else
    match f with
    | .missing => (.missing, false)
    | .readError => (.readError, false)
    | .file headers rows =>
      if headers = [] then (.file headers rows, false)
      else if "Address" ∉ headers then (.file headers rows, false)
      else if rows.any (fun r => pyStrip r.address == addr) then
        (.file headers (rows.filter fun r => !(pyStrip r.address == addr)), true)
      else (.file headers rows, false)

/-- The value of one entry of `asyncio.gather(..., return_exceptions=True)`
over the epoch tasks, as discriminated by `main` (lines 722-746). -/
inductive TaskResult where
  | completed (addr : String)
  | restartRequested
  | cancelled
  | finishedNormally
  | otherFailure
deriving DecidableEq, Repr

/-- `token_processing_outcome` in `main`. -/
inductive CycleOutcome where
  | completed
  | restartRequested
  | error
deriving DecidableEq, Repr

/-- The result-dispatch loop of `main` (lines 722-746): scans the gathered
results in order, breaking at the first `TokenProcessingComplete`
(removing the token from the CSV — the returned flag), `RestartRequired`,
or unexpected exception; cancelled tasks and plain returns are skipped. -/
def dispatchResults : List TaskResult → Option CycleOutcome × Bool
  | [] => (none, false)
  | .completed _ :: _ => (some .completed, true)
  | .restartRequested :: _ => (some .restartRequested, false)
  | .cancelled :: rest => dispatchResults rest
  | .finishedNormally :: rest => dispatchResults rest
  | .otherFailure :: _ => (some .error, false)

/-- The state a `ProcessLock.release` call sees: the object's
`lock_acquired` flag and the lock file's stripped first line when the file
exists (`acquire` writes `f"{os.getpid()}\n{time.time()}"`, so that line is
the owner's PID). -/
structure LockState where
  lockAcquired : Bool
  record : Option String
deriving DecidableEq, Repr

/-- `ProcessLock.release` (process_lock.py lines 54-69): a no-op unless
`lock_acquired`; otherwise unlinks the lock file only when its first line
equals `str(os.getpid())`, and always clears `lock_acquired`. -/
def ProcessLock.release (myPid : ℕ) (s : LockState) : LockState :=
  if !s.lockAcquired then s
  else
    { lockAcquired := false,
      record :=
        match s.record with
        | some owner => if owner = toString myPid then none else some owner
        | none => none }

/-- One entry of the `g_latest_trade_data` buffer: the `amount` (token
amount) and `solAmount` fields of a trade message. -/
structure Trade where
  amount : ℚ
  solAmount : ℚ
deriving DecidableEq, Repr

/-- Lines 469-475: the preferred tick price, derived from the most recent
buffered trade; produced only when the buffer is non-empty and the last
trade's token amount is strictly positive. -/
def derivePriceFromTrades (trades : List Trade) (solUsdPrice : ℚ) : Option ℚ :=
  match trades.getLast? with
  | some t =>
    if 0 < t.amount then some (t.solAmount / t.amount * solUsdPrice)
    else none
  | none => none

/-- Lines 469-483: the price determination of one tick.  When no price
derives from the trade buffer and the Dexscreener cooldown has passed, the
oracle's answer (`none` when it has no usable price) is used instead. -/
def determineTickPrice (trades : List Trade) (solUsdPrice : ℚ)
    (now lastDexFetchTime : ℚ) (dexPrice : Option ℚ) : Option ℚ :=
  match derivePriceFromTrades trades solUsdPrice with
  | some p => some p
  | none =>
    if DEXSCREENER_PRICE_UPDATE_INTERVAL_SECONDS < now - lastDexFetchTime then
      dexPrice
    else none

theorem setBaseline_of_some (s : EpochState) (b : ℚ) (price : Option ℚ)
    (hb : s.baseline = some b) : setBaseline s price = s := by
  cases price <;> simp [setBaseline, hb]

theorem evalTick_of_baseline_some (s : EpochState) (now : ℚ) (price : Option ℚ)
    (b : ℚ) (hb : s.baseline = some b) :
    evalTick s now price =
      (checkBuySignal b now price s).bind fun s1 =>
        (checkTakeProfitStopLoss price s1).bind fun s2 =>
          checkStagnation b now price s2 := by
  simp only [evalTick, setBaseline_of_some s b price hb, hb]

theorem evalTick_buy_fires (s : EpochState) (now p b : ℚ)
    (hb : s.baseline = some b) (hb0 : 0 ≤ b)
    (hnd : s.buySignalDetected = false)
    (hp : b * BUY_SIGNAL_PRICE_INCREASE_PERCENT < p) :
    evalTick s now (some p) =
      .ok { s with buySignalDetected := true, buyPrice := some p,
                   tradeStatus := "bought", stagnationTimerStart := none } := by
  have hc : 0 ≤ b * BUY_SIGNAL_PRICE_INCREASE_PERCENT :=
    mul_nonneg hb0 (by norm_num [BUY_SIGNAL_PRICE_INCREASE_PERCENT])
  have hp0 : 0 < p := lt_of_le_of_lt hc hp
  have h1 : ¬ (p * TAKE_PROFIT_THRESHOLD_PERCENT ≤ p) := by
    rw [TAKE_PROFIT_THRESHOLD_PERCENT]; nlinarith
  have h2 : ¬ (p ≤ p * STOP_LOSS_THRESHOLD_PERCENT) := by
    rw [STOP_LOSS_THRESHOLD_PERCENT]; nlinarith
  have h3 : ¬ (p < b * STAGNATION_PRICE_THRESHOLD_PERCENT) := by
    have hle : b * STAGNATION_PRICE_THRESHOLD_PERCENT ≤
        b * BUY_SIGNAL_PRICE_INCREASE_PERCENT :=
      mul_le_mul_of_nonneg_left
        (by norm_num [STAGNATION_PRICE_THRESHOLD_PERCENT,
          BUY_SIGNAL_PRICE_INCREASE_PERCENT]) hb0
    linarith
  obtain ⟨bl, bsd, bp, st, stag, status⟩ := s
  simp only [EpochState.baseline] at hb
  simp only [EpochState.buySignalDetected] at hnd
  subst hb; subst hnd
  rcases stag with _ | t0 <;>
    simp [evalTick, setBaseline, checkBuySignal, checkTakeProfitStopLoss,
      checkStagnation, Except.bind, hp, h1, h2, h3]

theorem checkBuySignal_detected (b now : ℚ) (price : Option ℚ)
    (s : EpochState) (hd : s.buySignalDetected = true) :
    checkBuySignal b now price s = .ok s := by
  simp [checkBuySignal, hd]

theorem checkTakeProfitStopLoss_ok (price : Option ℚ) (s s' : EpochState)
    (h : checkTakeProfitStopLoss price s = .ok s') : s' = s := by
  unfold checkTakeProfitStopLoss at h
  split at h
  · split_ifs at h
    all_goals simp_all
  · simp_all

theorem checkStagnation_ok_cases (b now : ℚ) (price : Option ℚ)
    (s s' : EpochState) (h : checkStagnation b now price s = .ok s') :
    s' = s ∨ s' = { s with stagnationTimerStart := some now } ∨
      s' = { s with stagnationTimerStart := none } := by
  unfold checkStagnation at h
  rcases price with _ | p <;>
    rcases hst : s.stagnationTimerStart with _ | t0 <;>
    (try simp only [hst] at h) <;>
    (try split_ifs at h)
  all_goals
    first
      | exact Except.noConfusion h
      | (injection h with h2
         first
           | exact Or.inl h2.symm
           | exact Or.inr (Or.inl h2.symm)
           | exact Or.inr (Or.inr h2.symm))

theorem evalTick_ok_preserves_buy (s : EpochState) (now : ℚ) (price : Option ℚ)
    (s' : EpochState) (hd : s.buySignalDetected = true)
    (h : evalTick s now price = .ok s') :
    s'.buySignalDetected = true ∧ s'.buyPrice = s.buyPrice := by
  have key : ∀ (b : ℚ) (t : EpochState),
      t.buySignalDetected = true → t.buyPrice = s.buyPrice →
      ((checkBuySignal b now price t).bind fun s1 =>
        (checkTakeProfitStopLoss price s1).bind fun s2 =>
          checkStagnation b now price s2) = .ok s' →
      s'.buySignalDetected = true ∧ s'.buyPrice = s.buyPrice := by
    intro b t htd htp hh
    rw [checkBuySignal_detected b now price t htd] at hh
    simp only [Except.bind] at hh
    cases htpsl : checkTakeProfitStopLoss price t with
    | error o => rw [htpsl] at hh; simp at hh
    | ok s2 =>
      rw [htpsl] at hh; simp only at hh
      have h2 : s2 = t := checkTakeProfitStopLoss_ok price t s2 htpsl
      subst h2
      rcases checkStagnation_ok_cases b now price s2 s' hh with rfl | rfl | rfl <;>
        simp_all
  rcases hbl : s.baseline with _ | b
  · rcases price with _ | p
    · have : evalTick s now none = .ok s := by
        simp [evalTick, setBaseline, hbl]
      rw [this] at h
      cases h
      exact ⟨hd, rfl⟩
    · have hs1 : evalTick s now (some p) =
          ((checkBuySignal p now (some p) { s with baseline := some p }).bind fun s1 =>
            (checkTakeProfitStopLoss (some p) s1).bind fun s2 =>
              checkStagnation p now (some p) s2) := by
        obtain ⟨bl, bsd, bp, st, stag, status⟩ := s
        simp only [EpochState.baseline] at hbl
        subst hbl
        simp [evalTick, setBaseline]
      rw [hs1] at h
      exact key p { s with baseline := some p } hd rfl h
  · rw [evalTick_of_baseline_some s now price b hbl] at h
    exact key b s hd rfl h

/-- Claim C1 (amended): with baseline `b` set and no prior buy signal, a tick
whose present price `p` satisfies the strict inequality `p > b * 1.01` sets
`buySignalDetected`, sets `buyPrice = p` and moves the status to `"bought"`
(Holding); and once `buySignalDetected` is set, no later non-closing tick
ever changes `buySignalDetected` or `buyPrice` again, so the transition
happens at most once per epoch. -/
theorem claim_c1_buy_signal_transition :
    (∀ (s : EpochState) (now p b : ℚ), s.baseline = some b → 0 ≤ b →
      s.buySignalDetected = false →
      b * BUY_SIGNAL_PRICE_INCREASE_PERCENT < p →
      evalTick s now (some p) =
        .ok { s with buySignalDetected := true, buyPrice := some p,
                     tradeStatus := "bought", stagnationTimerStart := none }) ∧
    (∀ (s : EpochState) (now : ℚ) (price : Option ℚ) (s' : EpochState),
      s.buySignalDetected = true → evalTick s now price = .ok s' →
      s'.buySignalDetected = true ∧ s'.buyPrice = s.buyPrice) :=
  ⟨fun s now p b hb hb0 hnd hp => evalTick_buy_fires s now p b hb hb0 hnd hp,
   fun s now price s' hd h => evalTick_ok_preserves_buy s now price s' hd h⟩

/-- Claim C1 counterexample: at `p = b * 1.01` exactly (`b = 100`,
`p = 101`) the code does not fire the buy signal — the comparison on line
494 of Monitoring.py is strict — so "P ≥ B·1.01 sets buySignalDetected" is
false as stated. -/
theorem claim_c1_counterexample :
    (101 : ℚ) = 100 * BUY_SIGNAL_PRICE_INCREASE_PERCENT ∧
    evalTick ⟨some 100, false, none, 0, none, "monitoring"⟩ 1 (some 101) =
      .ok ⟨some 100, false, none, 0, none, "monitoring"⟩ := by
  constructor
  · norm_num [BUY_SIGNAL_PRICE_INCREASE_PERCENT]
  · norm_num [evalTick, setBaseline, checkBuySignal, checkTakeProfitStopLoss,
      checkStagnation, BUY_SIGNAL_PRICE_INCREASE_PERCENT,
      NO_BUY_SIGNAL_TIMEOUT_SECONDS, STAGNATION_PRICE_THRESHOLD_PERCENT,
      STAGNATION_TIMEOUT_SECONDS, Except.bind]

/-- Claim C1 witness: both conjuncts of the amended claim applied at
concrete inputs (`b = 100`, `p = 102 > 101`). -/
theorem claim_c1_witness :
    evalTick ⟨some 100, false, none, 0, none, "monitoring"⟩ 1 (some 102) =
      .ok ⟨some 100, true, some 102, 0, none, "bought"⟩ ∧
    ((⟨some 100, true, some 102, 0, none, "bought"⟩ : EpochState).buySignalDetected = true ∧
     (⟨some 100, true, some 102, 0, none, "bought"⟩ : EpochState).buyPrice = some 102) := by
  constructor
  · exact claim_c1_buy_signal_transition.1
      ⟨some 100, false, none, 0, none, "monitoring"⟩ 1 102 100 rfl (by norm_num)
      rfl (by norm_num [BUY_SIGNAL_PRICE_INCREASE_PERCENT])
  · exact claim_c1_buy_signal_transition.2
      ⟨some 100, true, some 102, 0, none, "bought"⟩ 2 (some 103)
      ⟨some 100, true, some 102, 0, none, "bought"⟩ rfl
      (by norm_num [evalTick, setBaseline, checkBuySignal,
        checkTakeProfitStopLoss, checkStagnation,
        BUY_SIGNAL_PRICE_INCREASE_PERCENT, NO_BUY_SIGNAL_TIMEOUT_SECONDS,
        STAGNATION_PRICE_THRESHOLD_PERCENT, STAGNATION_TIMEOUT_SECONDS,
        TAKE_PROFIT_THRESHOLD_PERCENT, STOP_LOSS_THRESHOLD_PERCENT, Except.bind])

/-- Claim C6: on a tick where the present price crosses the buy threshold
and more than 180 seconds have also elapsed since epoch start, the result
is the buy-signal transition to Holding, not a `NoBuySignalTimeout` close:
the buy check on line 494 is evaluated before the timeout `elif` on line
499. -/
theorem claim_c6_buy_checked_before_timeout :
    ∀ (s : EpochState) (now p b : ℚ), s.baseline = some b → 0 ≤ b →
      s.buySignalDetected = false →
      b * BUY_SIGNAL_PRICE_INCREASE_PERCENT < p →
      NO_BUY_SIGNAL_TIMEOUT_SECONDS < now - s.tokenStartTime →
      evalTick s now (some p) =
        .ok { s with buySignalDetected := true, buyPrice := some p,
                     tradeStatus := "bought", stagnationTimerStart := none } :=
  fun s now p b hb hb0 hnd hp _ => evalTick_buy_fires s now p b hb hb0 hnd hp

/-- Claim C6 witness: at `now = 200 > 180`, `b = 100`, `p = 102`, the tick
yields the Holding transition rather than a timeout outcome. -/
theorem claim_c6_witness :
    NO_BUY_SIGNAL_TIMEOUT_SECONDS < (200:ℚ) - 0 ∧
    evalTick ⟨some 100, false, none, 0, none, "monitoring"⟩ 200 (some 102) =
      .ok ⟨some 100, true, some 102, 0, none, "bought"⟩ :=
  ⟨by norm_num [NO_BUY_SIGNAL_TIMEOUT_SECONDS],
   claim_c6_buy_checked_before_timeout
     ⟨some 100, false, none, 0, none, "monitoring"⟩ 200 102 100 rfl (by norm_num)
     rfl (by norm_num [BUY_SIGNAL_PRICE_INCREASE_PERCENT])
     (by norm_num [NO_BUY_SIGNAL_TIMEOUT_SECONDS])⟩

/-- In the Holding state with `buyPrice = x`, a tick with present price
reduces to the take-profit / stop-loss conditional followed by the
stagnation check. -/
theorem evalTick_holding (s : EpochState) (now p x b : ℚ)
    (hb : s.baseline = some b) (hd : s.buySignalDetected = true)
    (hx : s.buyPrice = some x) :
    evalTick s now (some p) =
      (if x * TAKE_PROFIT_THRESHOLD_PERCENT ≤ p then
        .error ⟨.takeProfit, some x, some p⟩
      else if p ≤ x * STOP_LOSS_THRESHOLD_PERCENT then
        .error ⟨.stopLoss, some x, some p⟩
      else checkStagnation b now (some p) s) := by
  rw [evalTick_of_baseline_some s now (some p) b hb,
    checkBuySignal_detected b now (some p) s hd]
  simp only [Except.bind, checkTakeProfitStopLoss, hd, hx]
  split_ifs <;> simp [Except.bind]

/-- Claim C2: in Holding with `buyPrice = x`, a present price `p` with
`p ≥ x * 1.10` closes with TakeProfit; otherwise `p ≤ x * 0.95` closes with
StopLoss.  The take-profit branch is evaluated first, so it wins whenever
both conditions hold; with the standard thresholds the two conditions are
mutually exclusive for any positive buy price. -/
theorem claim_c2_take_profit_stop_loss :
    (∀ (s : EpochState) (now p x b : ℚ), s.baseline = some b →
      s.buySignalDetected = true → s.buyPrice = some x →
      x * TAKE_PROFIT_THRESHOLD_PERCENT ≤ p →
      evalTick s now (some p) = .error ⟨.takeProfit, some x, some p⟩) ∧
    (∀ (s : EpochState) (now p x b : ℚ), s.baseline = some b →
      s.buySignalDetected = true → s.buyPrice = some x →
      p < x * TAKE_PROFIT_THRESHOLD_PERCENT →
      p ≤ x * STOP_LOSS_THRESHOLD_PERCENT →
      evalTick s now (some p) = .error ⟨.stopLoss, some x, some p⟩) ∧
    (∀ x p : ℚ, 0 < x → x * TAKE_PROFIT_THRESHOLD_PERCENT ≤ p →
      ¬ p ≤ x * STOP_LOSS_THRESHOLD_PERCENT) := by
  refine ⟨?_, ?_, ?_⟩
  · intro s now p x b hb hd hx htp
    rw [evalTick_holding s now p x b hb hd hx, if_pos htp]
  · intro s now p x b hb hd hx hnotp hsl
    rw [evalTick_holding s now p x b hb hd hx, if_neg (not_le.mpr hnotp), if_pos hsl]
  · intro x p hx htp
    rw [TAKE_PROFIT_THRESHOLD_PERCENT] at htp
    rw [STOP_LOSS_THRESHOLD_PERCENT]
    nlinarith

/-- Claim C2 witness: the three conjuncts applied at `x = 1` with `p = 2`
(take profit), `p = 9/10` (stop loss) and the exclusivity instance. -/
theorem claim_c2_witness :
    evalTick ⟨some 1, true, some 1, 0, none, "bought"⟩ 5 (some 2) =
      .error ⟨.takeProfit, some 1, some 2⟩ ∧
    evalTick ⟨some 1, true, some 1, 0, none, "bought"⟩ 5 (some (9/10)) =
      .error ⟨.stopLoss, some 1, some (9/10)⟩ ∧
    ¬ (2:ℚ) ≤ 1 * STOP_LOSS_THRESHOLD_PERCENT := by
  refine ⟨?_, ?_, ?_⟩
  · exact claim_c2_take_profit_stop_loss.1 ⟨some 1, true, some 1, 0, none, "bought"⟩
      5 2 1 1 rfl rfl rfl (by norm_num [TAKE_PROFIT_THRESHOLD_PERCENT])
  · exact claim_c2_take_profit_stop_loss.2.1 ⟨some 1, true, some 1, 0, none, "bought"⟩
      5 (9/10) 1 1 rfl rfl rfl (by norm_num [TAKE_PROFIT_THRESHOLD_PERCENT])
      (by norm_num [STOP_LOSS_THRESHOLD_PERCENT])
  · exact claim_c2_take_profit_stop_loss.2.2 1 2 (by norm_num)
      (by norm_num [TAKE_PROFIT_THRESHOLD_PERCENT])

/-- Claim C3 (amended): with the baseline set, no buy signal detected, a
tick price that does not cross the buy threshold, and more than 180 seconds
elapsed since epoch start, the tick closes with `NoBuySignalTimeout`
carrying the tick's price (if any) as sell price.  With no baseline set and
no price, a tick does nothing at all: every lifecycle check, the timeout
included, is guarded by `g_baseline_price_usd is not None` (line 491). -/
theorem claim_c3_no_buy_signal_timeout :
    (∀ (s : EpochState) (now b : ℚ) (price : Option ℚ), s.baseline = some b →
      s.buySignalDetected = false →
      (∀ p, price = some p → ¬ b * BUY_SIGNAL_PRICE_INCREASE_PERCENT < p) →
      NO_BUY_SIGNAL_TIMEOUT_SECONDS < now - s.tokenStartTime →
      evalTick s now price = .error ⟨.noBuySignalTimeout, none, price⟩) ∧
    (∀ (s : EpochState) (now : ℚ), s.baseline = none →
      evalTick s now none = .ok s) := by
  constructor
  · intro s now b price hb hnd hnp htime
    rw [evalTick_of_baseline_some s now price b hb]
    rcases price with _ | p
    · simp [checkBuySignal, hnd, htime, Except.bind]
    · simp [checkBuySignal, hnd, htime, hnp p rfl, Except.bind]
  · intro s now hb
    simp [evalTick, setBaseline, hb]

/-- Claim C3 counterexample: an epoch in which no price (hence no
baseline) was ever observed does not close after 180 seconds — the tick at
`now = 200` returns the state unchanged instead of a `NoBuySignalTimeout`
outcome, contradicting the claim's "including one in which no price was
ever observed". -/
theorem claim_c3_counterexample :
    NO_BUY_SIGNAL_TIMEOUT_SECONDS < (200:ℚ) - 0 ∧
    evalTick ⟨none, false, none, 0, none, "monitoring"⟩ 200 none =
      .ok ⟨none, false, none, 0, none, "monitoring"⟩ := by
  constructor
  · norm_num [NO_BUY_SIGNAL_TIMEOUT_SECONDS]
  · norm_num [evalTick, setBaseline]

/-- Claim C3 witness: both conjuncts applied at concrete inputs: a timed
out epoch with baseline 1 and price 1/2, and a baseline-less tick. -/
theorem claim_c3_witness :
    evalTick ⟨some 1, false, none, 0, none, "monitoring"⟩ 200 (some (1/2)) =
      .error ⟨.noBuySignalTimeout, none, some (1/2)⟩ ∧
    evalTick ⟨none, false, none, 5, none, "monitoring"⟩ 300 none =
      .ok ⟨none, false, none, 5, none, "monitoring"⟩ := by
  constructor
  · exact claim_c3_no_buy_signal_timeout.1 ⟨some 1, false, none, 0, none, "monitoring"⟩
      200 1 (some (1/2)) rfl rfl
      (by intro p hp; injection hp with hp; subst hp
          norm_num [BUY_SIGNAL_PRICE_INCREASE_PERCENT])
      (by norm_num [NO_BUY_SIGNAL_TIMEOUT_SECONDS])
  · exact claim_c3_no_buy_signal_timeout.2 ⟨none, false, none, 5, none, "monitoring"⟩ 300 rfl

/-- Claim C4 (amended): with baseline `b` set and a present price `p`, on
any tick where the buy-signal/timeout check and the take-profit/stop-loss
check pass without closing or changing the state: `p < b * 0.80` starts the
stagnation timer when unset; with the timer set for strictly more than 180
seconds it closes with Stagnation; and `p ≥ b * 0.80` clears the timer.
The preemption hypotheses are necessary: with no buy signal a tick whose
stagnation overrun exceeds 180s also exceeds the no-buy-signal timeout and
closes with `NoBuySignalTimeout` instead (see the counterexample). -/
theorem claim_c4_stagnation_ticks :
    ∀ (s : EpochState) (now p b : ℚ), s.baseline = some b →
      checkBuySignal b now (some p) s = .ok s →
      checkTakeProfitStopLoss (some p) s = .ok s →
      ((p < b * STAGNATION_PRICE_THRESHOLD_PERCENT →
          s.stagnationTimerStart = none →
          evalTick s now (some p) =
            .ok { s with stagnationTimerStart := some now }) ∧
       (∀ t0, p < b * STAGNATION_PRICE_THRESHOLD_PERCENT →
          s.stagnationTimerStart = some t0 →
          STAGNATION_TIMEOUT_SECONDS < now - t0 →
          evalTick s now (some p) = .error ⟨.stagnation, none, some p⟩) ∧
       (b * STAGNATION_PRICE_THRESHOLD_PERCENT ≤ p →
          evalTick s now (some p) = .ok { s with stagnationTimerStart := none })) := by
  intro s now p b hb hcb hctp
  have hev : evalTick s now (some p) = checkStagnation b now (some p) s := by
    rw [evalTick_of_baseline_some s now (some p) b hb, hcb]
    simp only [Except.bind]
    rw [hctp]
  refine ⟨?_, ?_, ?_⟩
  · intro hlt hst
    rw [hev]
    simp [checkStagnation, hlt, hst]
  · intro t0 hlt hst htime
    rw [hev]
    simp [checkStagnation, hlt, hst, htime]
  · intro hge
    rw [hev]
    rcases hst : s.stagnationTimerStart with _ | t0
    · simp only [checkStagnation, not_lt.mpr hge, if_neg (not_lt.mpr hge), hst]
      obtain ⟨bl, bsd, bp, st, stag, status⟩ := s
      simp only [EpochState.stagnationTimerStart] at hst
      subst hst
      rfl
    · simp [checkStagnation, not_lt.mpr hge, hst]

/-- Claim C4 counterexample: (1) with the timer set for exactly 180
seconds (claim says "≥ 180 s") and price below threshold the epoch does
not close — the comparison on line 533 is strict; (2) with no buy signal
and the timer set for 190 s the epoch closes with `NoBuySignalTimeout`,
not `Stagnation`, because the timeout check on line 499 runs first — the
claim's "independently of whether a buy signal was detected" fails for the
closing behaviour. -/
theorem claim_c4_counterexample :
    (STAGNATION_TIMEOUT_SECONDS ≤ (180:ℚ) - 0 ∧
     evalTick ⟨some 1, false, none, 0, some 0, "monitoring"⟩ 180 (some (1/2)) =
       .ok ⟨some 1, false, none, 0, some 0, "monitoring"⟩) ∧
    (STAGNATION_TIMEOUT_SECONDS ≤ (200:ℚ) - 10 ∧
     evalTick ⟨some 1, false, none, 0, some 10, "monitoring"⟩ 200 (some (1/2)) =
       .error ⟨.noBuySignalTimeout, none, some (1/2)⟩) := by
  refine ⟨⟨by norm_num [STAGNATION_TIMEOUT_SECONDS], ?_⟩,
          ⟨by norm_num [STAGNATION_TIMEOUT_SECONDS], ?_⟩⟩ <;>
    norm_num [evalTick, setBaseline, checkBuySignal, checkTakeProfitStopLoss,
      checkStagnation, BUY_SIGNAL_PRICE_INCREASE_PERCENT,
      NO_BUY_SIGNAL_TIMEOUT_SECONDS, STAGNATION_PRICE_THRESHOLD_PERCENT,
      STAGNATION_TIMEOUT_SECONDS, TAKE_PROFIT_THRESHOLD_PERCENT,
      STOP_LOSS_THRESHOLD_PERCENT, Except.bind]

/-- Claim C4 witness: the three amended conjuncts applied at concrete
states: timer start at `now = 10`, a Stagnation close in Holding with
`buyPrice = 1/2` at `now = 181`, and a recovery tick clearing the
timer. -/
theorem claim_c4_witness :
    (evalTick ⟨some 1, false, none, 0, none, "monitoring"⟩ 10 (some (1/2)) =
      .ok ⟨some 1, false, none, 0, some 10, "monitoring"⟩) ∧
    (evalTick ⟨some 1, true, some (1/2), 0, some 0, "bought"⟩ 181 (some (1/2)) =
      .error ⟨.stagnation, none, some (1/2)⟩) ∧
    (evalTick ⟨some 1, false, none, 0, some 3, "monitoring"⟩ 5 (some (9/10)) =
      .ok ⟨some 1, false, none, 0, none, "monitoring"⟩) := by
  refine ⟨?_, ?_, ?_⟩
  · exact (claim_c4_stagnation_ticks ⟨some 1, false, none, 0, none, "monitoring"⟩
      10 (1/2) 1 rfl
      (by norm_num [checkBuySignal, BUY_SIGNAL_PRICE_INCREASE_PERCENT,
        NO_BUY_SIGNAL_TIMEOUT_SECONDS])
      (by norm_num [checkTakeProfitStopLoss])).1
      (by norm_num [STAGNATION_PRICE_THRESHOLD_PERCENT]) rfl
  · exact (claim_c4_stagnation_ticks ⟨some 1, true, some (1/2), 0, some 0, "bought"⟩
      181 (1/2) 1 rfl
      (by norm_num [checkBuySignal])
      (by norm_num [checkTakeProfitStopLoss, TAKE_PROFIT_THRESHOLD_PERCENT,
        STOP_LOSS_THRESHOLD_PERCENT])).2.1 0
      (by norm_num [STAGNATION_PRICE_THRESHOLD_PERCENT]) rfl
      (by norm_num [STAGNATION_TIMEOUT_SECONDS])
  · exact (claim_c4_stagnation_ticks ⟨some 1, false, none, 0, some 3, "monitoring"⟩
      5 (9/10) 1 rfl
      (by norm_num [checkBuySignal, BUY_SIGNAL_PRICE_INCREASE_PERCENT,
        NO_BUY_SIGNAL_TIMEOUT_SECONDS])
      (by norm_num [checkTakeProfitStopLoss])).2.2
      (by norm_num [STAGNATION_PRICE_THRESHOLD_PERCENT])

/-- Claim C5 (amended): with baseline set, a buy signal detected, no
price for the whole tick, the stagnation timer currently unset, and more
than 180 seconds elapsed since epoch start, the tick closes with
`StagnationNoData`; the elapsed time is measured from `tokenStartTime`
(epoch start).  When no buy signal has been detected the same situation
closes with `NoBuySignalTimeout` instead, because the timeout check runs
first. -/
theorem claim_c5_stagnation_no_data :
    (∀ (s : EpochState) (now b : ℚ), s.baseline = some b →
      s.buySignalDetected = true → s.stagnationTimerStart = none →
      STAGNATION_TIMEOUT_SECONDS < now - s.tokenStartTime →
      evalTick s now none = .error ⟨.stagnationNoData, none, none⟩) ∧
    (∀ (s : EpochState) (now b : ℚ), s.baseline = some b →
      s.buySignalDetected = false → s.stagnationTimerStart = none →
      NO_BUY_SIGNAL_TIMEOUT_SECONDS < now - s.tokenStartTime →
      evalTick s now none = .error ⟨.noBuySignalTimeout, none, none⟩) := by
  constructor
  · intro s now b hb hd hst htime
    rw [evalTick_of_baseline_some s now none b hb,
      checkBuySignal_detected b now none s hd]
    simp only [Except.bind]
    rcases hx : s.buyPrice with _ | x <;>
      simp [checkTakeProfitStopLoss, hd, hx, checkStagnation, hst, htime,
        Except.bind]
  · intro s now b hb hnd hst htime
    rw [evalTick_of_baseline_some s now none b hb]
    simp [checkBuySignal, hnd, htime, Except.bind]

/-- Claim C5 counterexample: (1) a fresh epoch that saw one price (so the
baseline is set), never started the stagnation timer, and gets a price-less
tick after 200 s closes with `NoBuySignalTimeout`, not `StagnationNoData`;
(2) an epoch whose timer was started (price 1/2 at t = 2) and then cleared
(price 1.02 at t = 3, which also fires the buy signal) still closes with
`StagnationNoData` at t = 200 — the code only checks that the timer is
currently unset (line 544), not that it was "never started". -/
theorem claim_c5_counterexample :
    (runTicks (resetTokenSpecificState 0) [(1, some 1), (200, none)] =
      .error ⟨.noBuySignalTimeout, none, none⟩) ∧
    (runTicks (resetTokenSpecificState 0)
        [(1, some 1), (2, some (1/2)), (3, some (102/100)), (200, none)] =
      .error ⟨.stagnationNoData, none, none⟩) := by
  constructor <;>
    norm_num [runTicks, resetTokenSpecificState, evalTick, setBaseline,
      checkBuySignal, checkTakeProfitStopLoss, checkStagnation,
      BUY_SIGNAL_PRICE_INCREASE_PERCENT, NO_BUY_SIGNAL_TIMEOUT_SECONDS,
      STAGNATION_PRICE_THRESHOLD_PERCENT, STAGNATION_TIMEOUT_SECONDS,
      TAKE_PROFIT_THRESHOLD_PERCENT, STOP_LOSS_THRESHOLD_PERCENT, Except.bind]

/-- Claim C5 witness: both amended conjuncts applied at concrete states
(`now = 200`, baseline 1), with and without a detected buy signal. -/
theorem claim_c5_witness :
    (evalTick ⟨some 1, true, some (102/100), 0, none, "bought"⟩ 200 none =
      .error ⟨.stagnationNoData, none, none⟩) ∧
    (evalTick ⟨some 1, false, none, 0, none, "monitoring"⟩ 200 none =
      .error ⟨.noBuySignalTimeout, none, none⟩) := by
  constructor
  · exact claim_c5_stagnation_no_data.1 ⟨some 1, true, some (102/100), 0, none, "bought"⟩
      200 1 rfl rfl rfl (by norm_num [STAGNATION_TIMEOUT_SECONDS])
  · exact claim_c5_stagnation_no_data.2 ⟨some 1, false, none, 0, none, "monitoring"⟩
      200 1 rfl rfl rfl (by norm_num [NO_BUY_SIGNAL_TIMEOUT_SECONDS])

theorem getLast?_cons_elim {α : Type} (a : α) (l : List α) :
    (a :: l).getLast? = l.getLast?.elim (some a) some := by
  induction l generalizing a with
  | nil => rfl
  | cons b t ih =>
    rw [List.getLast?_cons_cons, ih b]
    cases t.getLast? <;> simp

theorem selectFromRows_eq_getLast (rows : List CsvRow)
    (acc : Option (String × String)) :
    selectFromRows rows acc =
      ((rows.filter rowValid).getLast?).elim acc
        (fun r => some (pyStrip r.address, displayName r)) := by
  induction rows generalizing acc with
  | nil => simp [selectFromRows]
  | cons r rest ih =>
    rcases hcell : impactValue r.priceImpactCell with _ | v
    · have hrv : rowValid r = false := by simp [rowValid, hcell]
      simp only [selectFromRows, hcell, List.filter_cons, hrv]
      exact ih acc
    · by_cases hc : pyStrip r.address ≠ "" ∧ v < PRICE_IMPACT_THRESHOLD_MONITOR
      · have hrv : rowValid r = true := by
          simp [rowValid, hcell, hc.1, hc.2]
        simp only [selectFromRows, hcell, if_pos hc, List.filter_cons, hrv,
          ite_true]
        rw [ih, getLast?_cons_elim]
        cases hlast : (rest.filter rowValid).getLast? <;> simp [displayName]
      · have hrv : rowValid r = false := by
          rcases not_and_or.mp hc with h1 | h2
          · simp only [ne_eq, not_not] at h1
            simp [rowValid, hcell, h1]
          · simp [rowValid, hcell, h2]
        simp only [selectFromRows, hcell, if_neg hc, List.filter_cons, hrv]
        exact ih acc

/-- Claim C7: `load_token_from_csv` returns the last row with a non-empty
stripped address and an impact value parsing strictly below 65, paired with
its name (defaulting to the address when the stripped name is empty); a
missing file, a read failure, an empty file, a header list without
`Address` (after stripping), or the absence of any qualifying row all
yield `(none, none)` rather than an error. -/
theorem claim_c7_target_selection :
    (load_token_from_csv .missing = (none, none)) ∧
    (load_token_from_csv .readError = (none, none)) ∧
    (∀ rows, load_token_from_csv (.file [] rows) = (none, none)) ∧
    (∀ headers rows, "Address" ∉ headers.map pyStrip →
      load_token_from_csv (.file headers rows) = (none, none)) ∧
    (∀ headers rows, headers ≠ [] → "Address" ∈ headers.map pyStrip →
      load_token_from_csv (.file headers rows) =
        ((rows.filter rowValid).getLast?).elim (none, none)
          (fun r => (some (pyStrip r.address), some (displayName r)))) := by
  refine ⟨rfl, rfl, ?_, ?_, ?_⟩
  · intro rows
    simp [load_token_from_csv]
  · intro headers rows hmem
    simp only [load_token_from_csv]
    split_ifs with h1
    · rfl
    · rfl
  · intro headers rows hne hmem
    simp only [load_token_from_csv]
    rw [if_neg hne, if_neg (not_not_intro hmem), selectFromRows_eq_getLast]
    cases (rows.filter rowValid).getLast? <;> simp

/-- Claim C8: in `main`'s result dispatch, the queue-removal call happens
exactly when the gathered results contain a `TokenProcessingComplete`
before any `RestartRequired` or unexpected failure; and
`remove_token_from_csv` then drops precisely the rows whose stripped
address matches the completed target. -/
theorem claim_c8_removal_on_completion :
    (∀ rs : List TaskResult,
      (dispatchResults rs).2 = true ↔
        (dispatchResults rs).1 = some CycleOutcome.completed) ∧
    (∀ (addr : String) (headers : List String) (rows : List CsvRow),
      addr ≠ "" → headers ≠ [] → "Address" ∈ headers →
      (∃ r ∈ rows, pyStrip r.address = addr) →
      remove_token_from_csv addr (.file headers rows) =
        (.file headers (rows.filter fun r => !(pyStrip r.address == addr)), true)) := by
  constructor
  · intro rs
    induction rs with
    | nil => simp [dispatchResults]
    | cons h t ih => cases h <;> simp [dispatchResults, ih]
  · intro addr headers rows haddr hne hmem hex
    have hany : (rows.any fun r => pyStrip r.address == addr) = true := by
      obtain ⟨r, hr, hra⟩ := hex
      simp only [List.any_eq_true]
      exact ⟨r, hr, by simp [hra]⟩
    simp only [remove_token_from_csv]
    rw [if_neg haddr, if_neg hne, if_neg (not_not_intro hmem), if_pos hany]

/-- Claim C9: `ProcessLock.release` removes the lock record only when the
PID stored in it equals the releasing process's own PID; a record naming a
different owner is left in place unchanged; and the record can only
disappear through a release by the recorded owner. -/
theorem claim_c9_lock_release_owner_check :
    (∀ (pid : ℕ) (owner : String), owner ≠ toString pid →
      ProcessLock.release pid ⟨true, some owner⟩ = ⟨false, some owner⟩) ∧
    (∀ pid : ℕ,
      ProcessLock.release pid ⟨true, some (toString pid)⟩ = ⟨false, none⟩) ∧
    (∀ (pid : ℕ) (s : LockState), (ProcessLock.release pid s).record = none →
      s.record = none ∨
        (s.lockAcquired = true ∧ s.record = some (toString pid))) := by
  refine ⟨?_, ?_, ?_⟩
  · intro pid owner h
    simp [ProcessLock.release, h]
  · intro pid
    simp [ProcessLock.release]
  · intro pid s h
    obtain ⟨acq, rec⟩ := s
    cases acq
    · simp_all [ProcessLock.release]
    · rcases rec with _ | owner
      · exact Or.inl rfl
      · simp only [ProcessLock.release, Bool.not_true, Bool.false_eq_true,
          if_false] at h
        split_ifs at h with howner
        exact Or.inr ⟨rfl, by rw [howner]⟩

/-- Claim C10: a price derives from the trade buffer only when the most
recent sample's token amount is strictly positive (so the quotient is
well-defined); an empty buffer or a non-positive amount yields no feed
price, and the tick then falls through to the Dexscreener fallback
path. -/
theorem claim_c10_no_division_by_zero :
    (∀ (trades : List Trade) (sol q : ℚ),
      derivePriceFromTrades trades sol = some q →
      ∃ t, trades.getLast? = some t ∧ 0 < t.amount ∧
        q = t.solAmount / t.amount * sol) ∧
    (∀ sol : ℚ, derivePriceFromTrades [] sol = none) ∧
    (∀ (trades : List Trade) (t : Trade) (sol : ℚ), trades.getLast? = some t →
      t.amount ≤ 0 → derivePriceFromTrades trades sol = none) ∧
    (∀ (trades : List Trade) (sol now lastFetch : ℚ) (dex : Option ℚ),
      derivePriceFromTrades trades sol = none →
      determineTickPrice trades sol now lastFetch dex =
        (if DEXSCREENER_PRICE_UPDATE_INTERVAL_SECONDS < now - lastFetch then dex
         else none)) := by
  refine ⟨?_, ?_, ?_, ?_⟩
  · intro trades sol q h
    unfold derivePriceFromTrades at h
    cases hl : trades.getLast? with
    | none =>
      simp only [hl] at h
      exact Option.noConfusion h
    | some t =>
      simp only [hl] at h
      split_ifs at h with ht
      exact ⟨t, rfl, ht, (Option.some.inj h).symm⟩
  · intro sol
    rfl
  · intro trades t sol hl ht
    unfold derivePriceFromTrades
    simp only [hl]
    rw [if_neg (not_lt.mpr ht)]
  · intro trades sol now lastFetch dex h
    unfold determineTickPrice
    rw [h]

theorem claim_c7_witness :
    load_token_from_csv (.file [" Address "]
        [⟨"zz", "Z", .value 10⟩, ⟨"", "x", .value 1⟩, ⟨"abc ", "", .value 10⟩]) =
      (some "abc", some "abc") ∧
    load_token_from_csv (.file ["Name"] [⟨"zz", "Z", .value 10⟩]) = (none, none) ∧
    load_token_from_csv (.file [] []) = (none, none) := by
  refine ⟨?_, ?_, ?_⟩
  · have h := claim_c7_target_selection.2.2.2.2 [" Address "]
      [⟨"zz", "Z", .value 10⟩, ⟨"", "x", .value 1⟩, ⟨"abc ", "", .value 10⟩]
      (by decide) (by decide)
    rw [h]
    norm_num [rowValid, impactValue, displayName, PRICE_IMPACT_THRESHOLD_MONITOR,
      List.filter]
    decide
  · exact claim_c7_target_selection.2.2.2.1 ["Name"] [⟨"zz", "Z", .value 10⟩]
      (by decide)
  · exact claim_c7_target_selection.2.2.1 []

theorem claim_c8_witness :
    ((dispatchResults [.cancelled, .completed "a"]).2 = true ↔
      (dispatchResults [.cancelled, .completed "a"]).1 =
        some CycleOutcome.completed) ∧
    ((dispatchResults [.restartRequested]).2 = true ↔
      (dispatchResults [.restartRequested]).1 = some CycleOutcome.completed) ∧
    remove_token_from_csv "a"
        (.file ["Address"] [⟨"a", "n", .empty⟩, ⟨"b", "m", .empty⟩]) =
      (.file ["Address"] [⟨"b", "m", .empty⟩], true) := by
  refine ⟨claim_c8_removal_on_completion.1 _,
          claim_c8_removal_on_completion.1 _, ?_⟩
  have h := claim_c8_removal_on_completion.2 "a" ["Address"]
    [⟨"a", "n", .empty⟩, ⟨"b", "m", .empty⟩] (by decide) (by decide) (by decide)
    ⟨⟨"a", "n", .empty⟩, by decide, by decide⟩
  rw [h]
  decide

theorem claim_c9_witness :
    ProcessLock.release 1 ⟨true, some "2"⟩ = ⟨false, some "2"⟩ ∧
    ProcessLock.release 5 ⟨true, some (toString (5:ℕ))⟩ = ⟨false, none⟩ ∧
    ((⟨true, some (toString (3:ℕ))⟩ : LockState).record = none ∨
      ((⟨true, some (toString (3:ℕ))⟩ : LockState).lockAcquired = true ∧
       (⟨true, some (toString (3:ℕ))⟩ : LockState).record =
         some (toString (3:ℕ)))) := by
  refine ⟨?_, ?_, ?_⟩
  · exact claim_c9_lock_release_owner_check.1 1 "2" (by decide)
  · exact claim_c9_lock_release_owner_check.2.1 5
  · exact claim_c9_lock_release_owner_check.2.2 3 ⟨true, some (toString (3:ℕ))⟩
      (by decide)

theorem claim_c10_witness :
    (∃ t, ([⟨2, 6⟩] : List Trade).getLast? = some t ∧ 0 < t.amount ∧
      (9:ℚ) = t.solAmount / t.amount * 3) ∧
    derivePriceFromTrades [] 3 = none ∧
    derivePriceFromTrades [⟨0, 5⟩] 3 = none ∧
    determineTickPrice [] 3 10 0 (some 7) =
      (if DEXSCREENER_PRICE_UPDATE_INTERVAL_SECONDS < (10:ℚ) - 0 then some 7
       else none) := by
  refine ⟨?_, claim_c10_no_division_by_zero.2.1 3, ?_, ?_⟩
  · exact claim_c10_no_division_by_zero.1 [⟨2, 6⟩] 3 9
      (by norm_num [derivePriceFromTrades])
  · exact claim_c10_no_division_by_zero.2.2.1 [⟨0, 5⟩] ⟨0, 5⟩ 3 rfl le_rfl
  · exact claim_c10_no_division_by_zero.2.2.2 [] 3 10 0 (some 7) rfl

end SniperX
